import Mathlib

/-!
Verification of the OHTTP relay request-forwarding pipeline
(storopoli/ohttp-relay, `src/lib.rs`).

The Rust code is shallowly embedded: `http::Uri` becomes a record of
optional string components, hyper's `HeaderMap` becomes an association
list of lowercase header names to values (hyper normalises header names
to lowercase on insertion), `Request<B>` is a record polymorphic in its
body type (bodies are opaque streams the relay never touches), and the
fallible functions return `Except Error`.  The `expect` panic on the
gateway authority inside `into_forward_req` is represented by an outer
`Option`: `none` is the panic.
-/

namespace OhttpRelay

/-- `http::Uri`: scheme, authority and path-and-query components, each
optional, kept as raw strings. -/
structure Uri where
  scheme : Option String
  authority : Option String
  pathAndQuery : Option String
  deriving Repr, DecidableEq

/-- `hyper::Method`, reduced to the constructors the relay dispatches on. -/
inductive Method where
  | POST
  | GET
  | CONNECT
  | other (name : String)
  deriving Repr, DecidableEq

/-- `hyper::Request<B>`: method, header map (lowercase names, in insertion
order) and URI, with an opaque body of type `β`. -/
structure Request (β : Type) where
  method : Method
  headers : List (String × String)
  uri : Uri
  body : β
  deriving Repr, DecidableEq

instance {ε α : Type} [DecidableEq ε] [DecidableEq α] :
    DecidableEq (Except ε α) := fun x y =>
  match x, y with
  | .ok a, .ok b =>
    if h : a = b then .isTrue (by rw [h])
    else .isFalse (fun hc => h (Except.ok.inj hc))
  | .error a, .error b =>
    if h : a = b then .isTrue (by rw [h])
    else .isFalse (fun hc => h (Except.error.inj hc))
  | .ok _, .error _ => .isFalse (fun hc => Except.noConfusion hc)
  | .error _, .ok _ => .isFalse (fun hc => Except.noConfusion hc)

/-- `HeaderMap::get`: first value stored under a (lowercase) name. -/
def headerGet (hs : List (String × String)) (name : String) : Option String :=
  (hs.find? (fun p => p.1 == name)).map (fun p => p.2)

/-- `HeaderMap::insert`: drop every value under the name, add the new one. -/
def headerInsert (hs : List (String × String)) (name value : String) :
    List (String × String) :=
  hs.filter (fun p => p.1 != name) ++ [(name, value)]

/-- `crate::error::Error`, the relay's error taxonomy. -/
inductive Error where
  | NotFound
  | MethodNotAllowed
  | UnsupportedMediaType
  | BadRequest (detail : String)
  | BadGateway
  deriving Repr, DecidableEq

/-- Modelled from the spec: `error.rs` is not part of the sources at hand;
§4.5 of the spec fixes the status each `Error::to_response` produces:
NotFound → 404, MethodNotAllowed → 405, UnsupportedMediaType → 415,
BadRequest → 400, BadGateway → 502. -/
def Error.statusCode : Error → Nat
  | .NotFound => 404
  | .MethodNotAllowed => 405
  | .UnsupportedMediaType => 415
  | .BadRequest _ => 400
  | .BadGateway => 502

/-- `OHTTP_RELAY_HOST`: the fixed Host header value the relay inserts. -/
def OHTTP_RELAY_HOST : String := "0.0.0.0"

/-- `EXPECTED_MEDIA_TYPE`: the only accepted Content-Type. -/
def EXPECTED_MEDIA_TYPE : String := "message/ohttp-req"

/-- Characters `http::uri` accepts in a scheme. -/
def isSchemeChar (c : Char) : Bool :=
  c.isAlpha || c.isDigit || c == '+' || c == '-' || c == '.'

/-- Characters accepted in an authority component (model of `http::uri`
validation; userinfo/host/port characters). -/
def isAuthorityChar (c : Char) : Bool :=
  c.isAlpha || c.isDigit || c == '-' || c == '.' || c == '_' || c == '~' ||
  c == '%' || c == '!' || c == '$' || c == '&' || c == '(' || c == ')' ||
  c == '*' || c == '+' || c == ',' || c == ';' || c == '=' || c == ':' ||
  c == '@' || c == '[' || c == ']'

/-- Characters accepted in a path-and-query (model of `http::uri`
validation). -/
def isPathAndQueryChar (c : Char) : Bool :=
  isAuthorityChar c || c == '/' || c == '?'

/-- Validity of a scheme string under `http::uri::Builder`. -/
def schemeValid (s : String) : Bool :=
  !s.isEmpty && s.data.all isSchemeChar

/-- Validity of an authority string under `http::uri::Builder`. -/
def authorityValid (a : String) : Bool :=
  !a.isEmpty && a.data.all isAuthorityChar

/-- Validity of a path-and-query string under `http::uri::Builder`. -/
def pathAndQueryValid (p : String) : Bool :=
  p.data.all isPathAndQueryChar

/-- `Uri::builder().scheme(s).authority(a).path_and_query(p).build()`:
succeeds exactly when all three components validate, yielding the URI
assembled from them. -/
def Uri.build (scheme authority pq : String) : Except String Uri :=
  if schemeValid scheme && authorityValid authority && pathAndQueryValid pq
  then .ok ⟨some scheme, some authority, some pq⟩
  else .error "invalid uri parts"

/-- `into_forward_req` (`src/lib.rs:120-150`).  Sanitises an inbound
request and retargets it at the gateway origin.  The outer `Option` is
`none` exactly when the `expect("Gateway origin must have an authority")`
on line 144 would panic; that access happens only after the method and
media-type checks have passed, as in the source. -/
def into_forward_req {β : Type} (req : Request β) (gateway_origin : Uri) :
    Option (Except Error (Request β)) :=
  if req.method ≠ Method.POST then
    some (.error .MethodNotAllowed)
  else
    let content_type_header := headerGet req.headers "content-type"
    let content_length_header := headerGet req.headers "content-length"
    let headers := headerInsert [] "host" OHTTP_RELAY_HOST
    if content_type_header ≠ some EXPECTED_MEDIA_TYPE then
      some (.error .UnsupportedMediaType)
    else
      let headers := match content_length_header with
        | some cl => headerInsert headers "content-length" cl
        | none => headers
      let req_path_and_query := req.uri.pathAndQuery.getD "/"
      match gateway_origin.authority with
      | none => none
      | some auth =>
        match Uri.build (gateway_origin.scheme.getD "https") auth
            req_path_and_query with
        | .ok u => some (.ok { req with headers := headers, uri := u })
        | .error _ => some (.error (.BadRequest "Invalid target uri"))

/-- Modelled from the spec: `gateway_uri.rs` is not part of the sources at
hand.  Per §4.1 and the §3 invariant, `GatewayUri::new` rejects any URI
lacking a (non-empty) authority component and is the sole validation
point; on success the handle wraps the very URI it was given. -/
def GatewayUri.new (uri : Uri) : Except String Uri :=
  match uri.authority with
  | none => .error "gateway origin must have an authority"
  | some a =>
    if a.isEmpty then .error "gateway origin must have an authority"
    else .ok uri

/-- Outcome of dispatching one inbound request: either an outbound request
is sent to the gateway, or an error response is returned with no outbound
call. -/
inductive RelayOutcome (β : Type) where
  | forward (req : Request β)
  | respond (e : Error)
  deriving Repr, DecidableEq

/-- `serve_ohttp_relay` (`src/lib.rs:89-103`) composed with
`handle_ohttp_relay` up to the point the outbound call would be issued,
with the bootstrap features disabled (so the `CONNECT`/`GET` arm is not
compiled in): `POST` goes to the sanitizer, every other method is answered
with `Error::NotFound`.  `none` is the sanitizer's panic. -/
def relay_dispatch {β : Type} (req : Request β) (gateway_origin : Uri) :
    Option (RelayOutcome β) :=
  match req.method with
  | .POST =>
    (into_forward_req req gateway_origin).map (fun r =>
      match r with
      | .ok fwd => .forward fwd
      | .error e => .respond e)
  | _ => some (.respond .NotFound)

/-- Transport-level failures the outbound client can report. -/
inductive TransportError where
  | connectionRefused
  | tlsFailure
  | timeout
  | protocolError
  | other (detail : String)
  deriving Repr, DecidableEq

/-- Upstream response, opaque to the relay apart from being passed back. -/
structure UpstreamResponse where
  status : Nat
  deriving Repr, DecidableEq

/-- `forward_request` (`src/lib.rs:152-158`): issue the outbound call via
the HTTPS-or-HTTP client (here an oracle `client` standing for
`client.request`), mapping every client error to `Error::BadGateway`. -/
def forward_request {β : Type}
    (client : Request β → Except TransportError UpstreamResponse)
    (req : Request β) : Except Error UpstreamResponse :=
  match client req with
  | .ok res => .ok res
  | .error _ => .error .BadGateway

/-- One event at the acceptor: `some h` is an accepted connection whose
spawned handler finishes with failure flag `h` (`serve_connection`
returned `Err`); `none` is a listener-level `accept` error. -/
abbrev AcceptEvent := Option Bool

/-- The `while let Ok` acceptor loop of `ohttp_relay`
(`src/lib.rs:69-84`) over a trace of accept events.  Each accepted
connection is handled (its failure flag is merely logged, returned here
as the handled list); the loop stops only at a listener-level error. -/
def acceptor_loop : List AcceptEvent → List Bool
  | [] => []
  | some h :: rest => h :: acceptor_loop rest
  | none :: _ => []

/-- `ohttp_relay` (`src/lib.rs:57-87`): validate the gateway origin via
`GatewayUri::new` (the `?` on line 66 aborts before any accept), then run
the acceptor loop. -/
def ohttp_relay (gateway_origin : Uri) (trace : List AcceptEvent) :
    Except String (List Bool) :=
  match GatewayUri.new gateway_origin with
  | .error e => .error e
  | .ok _ => .ok (acceptor_loop trace)

/-! ### Concrete values used by witnesses and counterexamples -/

/-- A gateway origin with scheme and authority, as configured at startup. -/
def exGw : Uri := ⟨some "https", some "gw.example", none⟩

/-- A well-formed inbound POST carrying client-identifying headers. -/
def exReqPost : Request Nat :=
  { method := .POST
    headers := [("content-type", "message/ohttp-req"),
                ("content-length", "4"),
                ("cookie", "session=secret"),
                ("user-agent", "curl"),
                ("x-forwarded-for", "203.0.113.9")]
    uri := ⟨none, none, some "/submit"⟩
    body := 7 }

/-- An inbound GET request. -/
def exReqGet : Request Nat :=
  { method := .GET
    headers := []
    uri := ⟨none, none, some "/"⟩
    body := 0 }

/-! ### Helper lemmas -/

/-- Unfolding a successful run of `into_forward_req`: the method was POST,
the media type matched, the gateway had an authority, the URI build
succeeded, and the result is the input request with exactly the rebuilt
headers and URI. -/
lemma into_forward_req_ok_elim {β : Type} {req fwd : Request β} {gw : Uri}
    (h : into_forward_req req gw = some (.ok fwd)) :
    req.method = .POST ∧
    headerGet req.headers "content-type" = some EXPECTED_MEDIA_TYPE ∧
    ∃ auth u, gw.authority = some auth ∧
      Uri.build (gw.scheme.getD "https") auth (req.uri.pathAndQuery.getD "/")
        = .ok u ∧
      fwd = { req with
              headers :=
                match headerGet req.headers "content-length" with
                | some cl =>
                  headerInsert (headerInsert [] "host" OHTTP_RELAY_HOST)
                    "content-length" cl
                | none => headerInsert [] "host" OHTTP_RELAY_HOST
              uri := u } := by
  simp only [into_forward_req] at h
  split at h
  · simp at h
  · next hm =>
    rw [not_ne_iff] at hm
    refine ⟨hm, ?_⟩
    split at h
    · simp at h
    · next hct =>
      rw [not_ne_iff] at hct
      refine ⟨hct, ?_⟩
      split at h
      · simp at h
      · next auth hauth =>
        split at h
        · next u hbuild =>
          refine ⟨auth, u, hauth, hbuild, ?_⟩
          simp only [Option.some.injEq, Except.ok.injEq] at h
          exact h.symm
        · simp at h

/-- The header map built for the forwarded request, computed. -/
lemma headerInsert_host :
    headerInsert [] "host" OHTTP_RELAY_HOST = [("host", OHTTP_RELAY_HOST)] :=
  rfl

/-- Reinserting Content-Length after the Host header, computed. -/
lemma headerInsert_host_cl (cl : String) :
    headerInsert [("host", OHTTP_RELAY_HOST)] "content-length" cl
      = [("host", OHTTP_RELAY_HOST), ("content-length", cl)] :=
  rfl

/-- The forwarded request `into_forward_req` produces from `exReqPost`
against `exGw`. -/
def exFwd : Request Nat :=
  { method := .POST
    headers := [("host", "0.0.0.0"), ("content-length", "4")]
    uri := ⟨some "https", some "gw.example", some "/submit"⟩
    body := 7 }

/-- A POST request missing the Content-Type header. -/
def exReqPostNoCT : Request Nat := { exReqPost with headers := [("content-length", "4")] }

/-- A POST request whose path contains a character the URI builder
rejects. -/
def exReqPostBadPath : Request Nat :=
  { exReqPost with uri := ⟨none, none, some "/bad path"⟩ }

/-- A gateway origin URI with no authority component. -/
def exBadGw : Uri := ⟨none, none, some "/only-a-path"⟩

/-! ### Claims -/

/-- C1: for every inbound POST request with Content-Type exactly
`message/ohttp-req`, the request produced by `into_forward_req` carries
exactly the header set `{Host: fixed relay host}` when the inbound
request has no Content-Length, and exactly
`{Host: fixed relay host, Content-Length: inbound value verbatim}` when
it does; no other inbound header (Cookie, User-Agent, X-Forwarded-For,
…) appears in the outbound request, for any inbound header set. -/
theorem into_forward_req_sanitizes_headers {β : Type}
    (req fwd : Request β) (gw : Uri)
    (_hm : req.method = .POST)
    (_hct : headerGet req.headers "content-type" = some EXPECTED_MEDIA_TYPE)
    (hok : into_forward_req req gw = some (.ok fwd)) :
    (fwd.headers =
      match headerGet req.headers "content-length" with
      | none => [("host", OHTTP_RELAY_HOST)]
      | some cl => [("host", OHTTP_RELAY_HOST), ("content-length", cl)]) ∧
    ∀ p ∈ fwd.headers, p.1 = "host" ∨ p.1 = "content-length" := by
  obtain ⟨-, -, auth, u, -, -, hfwd⟩ := into_forward_req_ok_elim hok
  cases hcl : headerGet req.headers "content-length" <;>
    simp [hfwd, hcl, headerInsert_host, headerInsert_host_cl]

/-- C1 witness: the concrete POST request with cookie, user-agent and
x-forwarded-for headers is forwarded with only Host and Content-Length. -/
theorem into_forward_req_sanitizes_headers_witness :
    exFwd.headers = [("host", OHTTP_RELAY_HOST), ("content-length", "4")] :=
  (into_forward_req_sanitizes_headers exReqPost exFwd exGw rfl rfl
    (by decide)).1

/-- C3: for every inbound POST request whose Content-Type is absent or is
any value other than exactly `message/ohttp-req`, the dispatcher answers
`UnsupportedMediaType` (status 415) and no outbound request is sent (the
outcome is `respond`, never `forward`). -/
theorem relay_dispatch_rejects_bad_media_type {β : Type}
    (req : Request β) (gw : Uri)
    (hm : req.method = .POST)
    (hct : headerGet req.headers "content-type" ≠ some EXPECTED_MEDIA_TYPE) :
    relay_dispatch req gw = some (.respond .UnsupportedMediaType) ∧
    Error.UnsupportedMediaType.statusCode = 415 := by
  refine ⟨?_, rfl⟩
  have h1 : into_forward_req req gw = some (.error .UnsupportedMediaType) := by
    simp only [into_forward_req]
    rw [if_neg (not_not_intro hm), if_pos hct]
  simp [relay_dispatch, hm, h1]

/-- C3 witness: the concrete POST request without a Content-Type header
is answered with 415. -/
theorem relay_dispatch_rejects_bad_media_type_witness :
    relay_dispatch exReqPostNoCT exGw
      = some (.respond .UnsupportedMediaType) ∧
    Error.UnsupportedMediaType.statusCode = 415 :=
  relay_dispatch_rejects_bad_media_type exReqPostNoCT exGw rfl (by decide)

/-- C4: for every inbound POST request accepted by sanitization, the
outbound URI's path-and-query equals the inbound one exactly; when the
inbound URI carries no path-and-query the outbound path is exactly
`"/"`. -/
theorem into_forward_req_preserves_path_and_query {β : Type}
    (req fwd : Request β) (gw : Uri)
    (hok : into_forward_req req gw = some (.ok fwd)) :
    (∀ pq, req.uri.pathAndQuery = some pq → fwd.uri.pathAndQuery = some pq) ∧
    (req.uri.pathAndQuery = none → fwd.uri.pathAndQuery = some "/") := by
  obtain ⟨-, -, auth, u, -, hbuild, hfwd⟩ := into_forward_req_ok_elim hok
  have hu : u.pathAndQuery = some (req.uri.pathAndQuery.getD "/") := by
    simp only [Uri.build] at hbuild
    split at hbuild
    · cases hbuild; rfl
    · cases hbuild
  have hfu : fwd.uri = u := by rw [hfwd]
  constructor
  · intro pq hpq
    rw [hfu, hu, hpq]
    rfl
  · intro hnone
    rw [hfu, hu, hnone]
    rfl

/-- C4 witness: the concrete POST to `/submit` is forwarded to
`/submit`. -/
theorem into_forward_req_preserves_path_and_query_witness :
    exFwd.uri.pathAndQuery = some "/submit" :=
  (into_forward_req_preserves_path_and_query exReqPost exFwd exGw
    (by decide)).1 "/submit" rfl

/-- C8: sanitization leaves the request body untouched — the outbound
body is the identical value as the inbound body (the body type is opaque
to `into_forward_req`), and only the headers and URI change (the method
is also preserved). -/
theorem into_forward_req_preserves_body {β : Type}
    (req fwd : Request β) (gw : Uri)
    (hok : into_forward_req req gw = some (.ok fwd)) :
    fwd.body = req.body ∧ fwd.method = req.method := by
  obtain ⟨-, -, auth, u, -, -, hfwd⟩ := into_forward_req_ok_elim hok
  rw [hfwd]
  exact ⟨rfl, rfl⟩

/-- C8 witness: the concrete forwarded request keeps the inbound body. -/
theorem into_forward_req_preserves_body_witness :
    exFwd.body = exReqPost.body ∧ exFwd.method = exReqPost.method :=
  into_forward_req_preserves_body exReqPost exFwd exGw (by decide)

/-- C10: for any gateway handle produced by a successful
`GatewayUri.new`, the authority lookup inside `into_forward_req` never
panics: the function always returns `some` outcome, for every request. -/
theorem into_forward_req_no_panic {β : Type}
    (uri g : Uri) (req : Request β)
    (hg : GatewayUri.new uri = .ok g) :
    (into_forward_req req g).isSome := by
  have hauth : ∃ a, g.authority = some a := by
    simp only [GatewayUri.new] at hg
    split at hg
    · cases hg
    · next a ha =>
      split at hg
      · cases hg
      · cases hg
        exact ⟨a, ha⟩
  obtain ⟨a, ha⟩ := hauth
  simp only [into_forward_req, ha]
  split
  · simp
  · split
    · simp
    · split <;> simp

/-- C10 witness: with the concrete validated gateway, sanitizing the GET
request returns an outcome (here an error) rather than panicking. -/
theorem into_forward_req_no_panic_witness :
    (into_forward_req exReqGet exGw).isSome :=
  into_forward_req_no_panic exGw exGw exReqGet (by decide)

/-- C2 counterexample: a concrete non-POST request (GET) is answered by
the dispatcher with `NotFound`, whose status is 404, not the 405 the
claim states. -/
theorem relay_dispatch_non_post_counterexample :
    relay_dispatch exReqGet exGw = some (.respond .NotFound) ∧
    Error.NotFound.statusCode = 404 ∧ Error.NotFound.statusCode ≠ 405 := by
  refine ⟨by decide, rfl, by decide⟩

/-- C2 amended: for every inbound request whose method is not POST (with
bootstrap disabled), the dispatcher answers `NotFound` (status 404) and
no outbound request is sent (the outcome is `respond`, never `forward`);
the sanitizer `into_forward_req` would itself answer `MethodNotAllowed`
(status 405) for a non-POST request, but the dispatcher never routes a
non-POST request to it. -/
theorem relay_dispatch_non_post {β : Type} (req : Request β) (gw : Uri)
    (hm : req.method ≠ .POST) :
    relay_dispatch req gw = some (.respond .NotFound) ∧
    Error.NotFound.statusCode = 404 ∧
    into_forward_req req gw = some (.error .MethodNotAllowed) ∧
    Error.MethodNotAllowed.statusCode = 405 := by
  refine ⟨?_, rfl, ?_, rfl⟩
  · simp only [relay_dispatch]
  · simp only [into_forward_req, if_pos hm]

/-- C2 witness: the concrete GET request is answered with 404 and not
forwarded. -/
theorem relay_dispatch_non_post_witness :
    relay_dispatch exReqGet exGw = some (.respond .NotFound) ∧
    Error.NotFound.statusCode = 404 ∧
    into_forward_req exReqGet exGw = some (.error .MethodNotAllowed) ∧
    Error.MethodNotAllowed.statusCode = 405 :=
  relay_dispatch_non_post exReqGet exGw (by decide)

/-- C5: on every accepted POST, the outbound URI carries the gateway
origin's scheme (defaulting to `https` when the gateway has none) and
the gateway origin's authority; and whenever assembling the target URI
fails, sanitization answers `BadRequest` carrying the human-readable
detail `"Invalid target uri"`. -/
theorem into_forward_req_uri_target (β : Type) :
    (∀ (req fwd : Request β) (gw : Uri),
      into_forward_req req gw = some (.ok fwd) →
      fwd.uri.scheme = some (gw.scheme.getD "https") ∧
      fwd.uri.authority = gw.authority) ∧
    (∀ (req : Request β) (gw : Uri) (auth msg : String),
      req.method = .POST →
      headerGet req.headers "content-type" = some EXPECTED_MEDIA_TYPE →
      gw.authority = some auth →
      Uri.build (gw.scheme.getD "https") auth (req.uri.pathAndQuery.getD "/")
        = .error msg →
      into_forward_req req gw
        = some (.error (.BadRequest "Invalid target uri"))) := by
  constructor
  · intro req fwd gw hok
    obtain ⟨-, -, auth, u, hauth, hbuild, hfwd⟩ := into_forward_req_ok_elim hok
    have hu : u = ⟨some (gw.scheme.getD "https"), some auth,
        some (req.uri.pathAndQuery.getD "/")⟩ := by
      simp only [Uri.build] at hbuild
      split at hbuild
      · cases hbuild; rfl
      · cases hbuild
    have hfu : fwd.uri = u := by rw [hfwd]
    rw [hfu, hu, hauth]
    exact ⟨rfl, rfl⟩
  · intro req gw auth msg hm hct hauth hbuild
    simp only [into_forward_req, hauth]
    rw [if_neg (not_not_intro hm), if_neg (not_not_intro hct), hbuild]

/-- C5 witness: the concrete accepted POST is targeted at
`https://gw.example`, and a path with a space makes the builder fail and
sanitization answer `BadRequest "Invalid target uri"`. -/
theorem into_forward_req_uri_target_witness :
    exFwd.uri.scheme = some "https" ∧
    exFwd.uri.authority = exGw.authority ∧
    into_forward_req exReqPostBadPath exGw
      = some (.error (.BadRequest "Invalid target uri")) := by
  have h := into_forward_req_uri_target Nat
  refine ⟨(h.1 exReqPost exFwd exGw (by decide)).1,
          (h.1 exReqPost exFwd exGw (by decide)).2,
          h.2 exReqPostBadPath exGw "gw.example" "invalid uri parts"
            rfl (by decide) rfl (by decide)⟩

/-- C6: every failure of the outbound client call, whatever the
transport error, is mapped to `BadGateway`, and `BadGateway` is the only
error `forward_request` can produce. -/
theorem forward_request_bad_gateway (β : Type) :
    (∀ (client : Request β → Except TransportError UpstreamResponse)
       (req : Request β) (e : Error),
      forward_request client req = .error e → e = .BadGateway) ∧
    (∀ (client : Request β → Except TransportError UpstreamResponse)
       (req : Request β) (te : TransportError),
      client req = .error te →
      forward_request client req = .error .BadGateway) := by
  constructor
  · intro client req e h
    unfold forward_request at h
    split at h
    · cases h
    · cases h
      rfl
  · intro client req te h
    unfold forward_request
    rw [h]

/-- C6 witness: a client that refuses the connection yields exactly
`BadGateway`. -/
theorem forward_request_bad_gateway_witness :
    forward_request (fun _ : Request Nat => .error .connectionRefused)
        exReqGet
      = .error .BadGateway :=
  (forward_request_bad_gateway Nat).2
    (fun _ => .error .connectionRefused) exReqGet .connectionRefused rfl

/-- C7: a gateway origin URI without an authority makes `GatewayUri.new`
fail, so `ohttp_relay` returns the error before accepting any
connection; conversely every handle produced by `GatewayUri.new` has a
present, non-empty authority. -/
theorem gateway_uri_requires_authority :
    (∀ (uri : Uri) (trace : List AcceptEvent),
      uri.authority = none →
      ohttp_relay uri trace
        = .error "gateway origin must have an authority") ∧
    (∀ uri g, GatewayUri.new uri = .ok g →
      ∃ a, g.authority = some a ∧ ¬a.isEmpty) := by
  constructor
  · intro uri trace h
    simp [ohttp_relay, GatewayUri.new, h]
  · intro uri g h
    simp only [GatewayUri.new] at h
    split at h
    · cases h
    · next a ha =>
      split at h
      · cases h
      · next hne =>
        cases h
        exact ⟨a, ha, hne⟩

/-- C7 witness: the authority-less URI aborts the relay before any
accept, and the concrete validated gateway has authority
`"gw.example"`. -/
theorem gateway_uri_requires_authority_witness :
    ohttp_relay exBadGw [some false]
      = .error "gateway origin must have an authority" ∧
    ∃ a, exGw.authority = some a ∧ ¬a.isEmpty :=
  ⟨gateway_uri_requires_authority.1 exBadGw [some false] rfl,
   gateway_uri_requires_authority.2 exGw exGw (by decide)⟩

/-- C9: the acceptor loop handles every accepted connection regardless
of whether its spawned handler fails (the failure flags are arbitrary)
and keeps accepting afterwards; only a listener-level accept error ends
the loop. -/
theorem acceptor_loop_isolates_connection_errors :
    (∀ (handled : List Bool) (tail : List AcceptEvent),
      acceptor_loop (handled.map some ++ tail)
        = handled ++ acceptor_loop tail) ∧
    (∀ tail, acceptor_loop (none :: tail) = []) := by
  constructor
  · intro handled tail
    induction handled with
    | nil => simp
    | cons h t ih => simp [acceptor_loop, ih]
  · intro tail
    rfl

end OhttpRelay
